import Mathlib

/-!
Shallow embedding of the ghananewsinbrief two-stage news pipeline.

The repository is a Cloudflare Workers project with two workflows sharing a
KV namespace (`GH_NEWS_CACHE`):

* `GHNewsProcessorWorkflow` (src/worker/workflows/gh-news-processor.ts) —
  the Delivery stage: idempotency check, summary generation, message
  composition, Telegram send, cache write-back with a 24 h TTL.
* `JoyNewsScraperWorkflow` (src/unnamed/part_000, src/workflows/joy-news-scraper.ts) —
  the Discovery stage: fetch listing links, fetch feed entries, bulk cache
  check, article assembly, batch fan-out of processor instances.
* `summarizeArticle` / `sendTelegramMessage` (src/worker/utils.ts).

External platform facilities are modelled as explicit inputs: the KV store
is a function from key to stored value plus absolute expiry time; the
Gemini model call is an `Except String String` outcome; the Telegram HTTP
attempts are outcomes of an inductive type; JavaScript `new Date(s)`
parsing is a `String → Option String` parameter (`none` models an Invalid
Date, whose `toISOString()` throws a RangeError); percent-encoding by
`encodeURI` is not modelled (URLs are carried verbatim). Step side effects
are recorded in an explicit trace so that "invokes neither the Summarizer
nor the Notifier" and "writes nothing to the cache" are statable.
-/

/-- Article value type (src/types.ts): `image_url?: string` is optional. -/
structure Article where
  title : String
  url : String
  date_published : String
  content : String
  image_url : Option String
deriving DecidableEq, Repr

/-- The KV namespace `GH_NEWS_CACHE`: a key maps to a stored string value
together with its absolute expiration time in seconds (entries written with
`expirationTtl` expire automatically). -/
def KV : Type := String → Option (String × Nat)

/-- KV `get`: returns the stored value when the entry exists and has not
expired at time `now`, and `null` (here `none`) otherwise. -/
def kvGet (kv : KV) (now : Nat) (key : String) : Option String :=
  match kv key with
  | some (v, expiry) => if now < expiry then some v else none
  | none => none

/-- KV `put` with `expirationTtl`: stores the value under the key with
absolute expiry `now + ttl`. -/
def kvPut (kv : KV) (now : Nat) (key value : String) (ttl : Nat) : KV :=
  fun k => if k == key then some (value, now + ttl) else kv k

/-- Observable side effects of a Delivery run, in execution order. -/
inductive Effect where
  | cacheGet (key : String)
  | summarize (content : String)
  | notify (message imageUrl articleUrl : String)
  | cachePut (key value : String) (ttl : Nat)
deriving DecidableEq, Repr

/-- src/worker/utils.ts `summarizeArticle`: wraps the Gemini
`generateObject` call (modelled by its outcome `modelCall`) in
`try`/`catch`; a successful call yields the summary string and every
thrown error is caught and mapped to `null`. -/
def summarizeArticle (modelCall : Except String String) : Option String :=
  match modelCall with
  | Except.ok s => some s
  | Except.error _ => none

/-- Default image URL hard-coded in step `send_telegram_message` of
gh-news-processor.ts, used when `article.image_url` is falsy. -/
def defaultImageUrl : String :=
  "https://images.unsplash.com/photo-1504711434969-e33886168f5c?ixlib=rb-4.0.3&q=80&fm=jpg&crop=entropy&cs=tinysrgb&w=800&h=400&fit=crop"

/-- JavaScript `article.image_url || defaultImageUrl`: `undefined` and the
empty string are falsy. -/
def jsOrDefaultImage : Option String → String
  | some s => if s == "" then defaultImageUrl else s
  | none => defaultImageUrl

namespace GHNewsProcessorWorkflow

/-- Cache key for an article URL: `CACHE_KEY_PREFIX` (the literal
`'article:'`) concatenated with the URL. -/
def cacheKey (url : String) : String := "article:" ++ url

/-- The early-exit result of step 1 (`check_if_processed` hit). -/
structure SkippedResult where
  success : Bool
  skipped : Bool
  reason : String
  url : String
deriving DecidableEq, Repr

/-- The final result of a full run (steps 2–5 all succeeded). -/
structure CompletedResult where
  success : Bool
  url : String
  title : String
  summary : String
  telegramSent : Bool
  processedAt : String
deriving DecidableEq, Repr

/-- Outcome of a Delivery run that did not throw. -/
inductive RunOutcome where
  | skip : SkippedResult → RunOutcome
  | done : CompletedResult → RunOutcome
deriving DecidableEq, Repr

/-- Result of a run: the returned value or the thrown error message, the
final cache state, and the trace of performed side effects. -/
structure RunState where
  result : Except String RunOutcome
  kv : KV
  trace : List Effect

/-- Step 3 `create_message`: `` `${emoji} <b>${title}</b>\n\n<i>${summary}</i>` ``. -/
def telegramMessageFor (title summary : String) : String :=
  "📰 <b>" ++ title ++ "</b>\n\n<i>" ++ summary ++ "</i>"

/-- Step 5 metadata, `JSON.stringify` of
`{processed_at, title, url, summary}` (string escaping not modelled). -/
def metadataFor (nowIso : String) (a : Article) (summary : String) : String :=
  "\x7b\"processed_at\":\"" ++ nowIso ++ "\",\"title\":\"" ++ a.title ++
    "\",\"url\":\"" ++ a.url ++ "\",\"summary\":\"" ++ summary ++ "\"\x7d"

/-- Steps 2–5 of `GHNewsProcessorWorkflow.run`: generate the summary, throw
if it is falsy, compose the message, send it (outcome `sendResult`), throw
on send failure, otherwise record the article in KV with a 86400 s TTL and
return the completed result. `trace0` is the trace accumulated by step 1. -/
def mainSteps (article : Article) (kv : KV) (now : Nat) (nowIso : String)
    (modelCall : Except String String) (sendResult : Bool)
    (trace0 : List Effect) : RunState :=
  match summarizeArticle modelCall with
  | none =>
      { result := Except.error ("Failed to generate summary for article: " ++ article.url),
        kv := kv,
        trace := trace0 ++ [Effect.summarize article.content] }
  | some summary =>
      if summary == "" then
        { result := Except.error ("Failed to generate summary for article: " ++ article.url),
          kv := kv,
          trace := trace0 ++ [Effect.summarize article.content] }
      else
        if sendResult then
          { result := Except.ok (RunOutcome.done
              { success := true, url := article.url, title := article.title,
                summary := summary, telegramSent := true, processedAt := nowIso }),
            kv := kvPut kv now (cacheKey article.url) (metadataFor nowIso article summary) 86400,
            trace := trace0 ++
              [Effect.summarize article.content,
               Effect.notify (telegramMessageFor article.title summary)
                 (jsOrDefaultImage article.image_url) article.url,
               Effect.cachePut (cacheKey article.url) (metadataFor nowIso article summary) 86400] }
        else
          { result := Except.error ("Failed to send Telegram message for article: " ++ article.url),
            kv := kv,
            trace := trace0 ++
              [Effect.summarize article.content,
               Effect.notify (telegramMessageFor article.title summary)
                 (jsOrDefaultImage article.image_url) article.url] }

/-- `GHNewsProcessorWorkflow.run`: unless `reprocess`, step 1 reads the
cache entry for the article's URL and returns the skipped result when it is
live; otherwise steps 2–5 run. -/
def run (article : Article) (reprocess : Bool) (kv : KV) (now : Nat)
    (nowIso : String) (modelCall : Except String String)
    (sendResult : Bool) : RunState :=
  if reprocess then
    mainSteps article kv now nowIso modelCall sendResult []
  else
    if (kvGet kv now (cacheKey article.url)).isSome then
      { result := Except.ok (RunOutcome.skip
          { success := true, skipped := true,
            reason := "Article already processed", url := article.url }),
        kv := kv,
        trace := [Effect.cacheGet (cacheKey article.url)] }
    else
      mainSteps article kv now nowIso modelCall sendResult
        [Effect.cacheGet (cacheKey article.url)]

end GHNewsProcessorWorkflow

namespace JoyNewsScraperWorkflow

/-- Cache key used by the Discovery stage: the same `CACHE_KEY_PREFIX`
literal `'article:'` concatenated with the article link. -/
def cacheKey (link : String) : String := "article:" ++ link

/-- A parsed RSS feed entry as built by `parseRSSFeed`: every field is
defaulted to the empty string / empty list when missing, and
`media_content` carries the `media:content` URLs. -/
structure FeedEntry where
  title : String
  link : String
  published : String
  summary : String
  media_content : List String
deriving DecidableEq, Repr

/-- Step 3 `check_processed_articles`: bulk-read the cache keys of all
candidate links and map each link to whether its entry is live. The record
only holds keys for links in `articleLinks` (an absent key reads back
falsy). -/
def checkProcessedArticles (kv : KV) (now : Nat) (articleLinks : List String) :
    String → Bool :=
  fun link =>
    decide (link ∈ articleLinks) && (kvGet kv now (cacheKey link)).isSome

/-- Article assembly inside step 4: `entry.published ?
new Date(entry.published).toISOString() : getCurrentUTCDate().toISOString()`.
A non-empty publish field is parsed by `parseDate` (a model of JavaScript
`new Date`): on success the parsed ISO string is used, while on failure
`toISOString()` throws `RangeError: Invalid time value`, failing the step.
An empty/absent publish field falls back to the current time `nowIso`. -/
def mkArticle (parseDate : String → Option String) (nowIso : String)
    (link : String) (entry : FeedEntry) : Except String Article :=
  if entry.published == "" then
    Except.ok { title := entry.title, url := link, date_published := nowIso,
                content := entry.summary,
                image_url := some ((entry.media_content.head?).getD "") }
  else
    match parseDate entry.published with
    | some iso =>
        Except.ok { title := entry.title, url := link, date_published := iso,
                    content := entry.summary,
                    image_url := some ((entry.media_content.head?).getD "") }
    | none => Except.error "RangeError: Invalid time value"

/-- Step 4 `prepare_articles`: walk the candidate links in order, skip
links already processed, skip links absent from the feed mapping (logged
only), and assemble an Article for the rest; a date-conversion throw fails
the whole step. -/
def prepareArticles (parseDate : String → Option String) (nowIso : String)
    (processed : String → Bool) (feed : String → Option FeedEntry) :
    List String → Except String (List Article)
  | [] => Except.ok []
  | link :: rest =>
    if processed link then
      prepareArticles parseDate nowIso processed feed rest
    else
      match feed link with
      | none => prepareArticles parseDate nowIso processed feed rest
      | some entry =>
        match mkArticle parseDate nowIso link entry with
        | Except.error e => Except.error e
        | Except.ok a =>
          match prepareArticles parseDate nowIso processed feed rest with
          | Except.error e => Except.error e
          | Except.ok rest2 => Except.ok (a :: rest2)

/-- One element of the `trigger_processors` result list. -/
structure ProcessorTrigger where
  url : String
  processor_id : String
  status : String
deriving DecidableEq, Repr

/-- Mapping of `createBatch` instances back to the original format: the
i-th article yields `{url, processor_id, status: 'triggered'}`, with
`mkId` modelling `crypto.randomUUID` per batch position. -/
def triggerProcessorsAux (mkId : Nat → String) : Nat → List Article → List ProcessorTrigger
  | _, [] => []
  | i, a :: rest =>
      { url := a.url, processor_id := mkId i, status := "triggered" } ::
        triggerProcessorsAux mkId (i + 1) rest

/-- Step 5 `trigger_processors`: with no articles to process return `[]`
without a batch call; otherwise create one processor instance per
assembled article in a single batch. -/
def triggerProcessors (mkId : Nat → String) (articles : List Article) :
    List ProcessorTrigger :=
  if articles.isEmpty then [] else triggerProcessorsAux mkId 0 articles

/-- The record returned by `JoyNewsScraperWorkflow.run`. -/
structure ScrapeResult where
  success : Bool
  total_links : Nat
  total_processed : Nat
  processors : List ProcessorTrigger
  timestamp : String
deriving DecidableEq, Repr

/-- Steps 3–5 of `JoyNewsScraperWorkflow.run`. The fetch steps 1–2 are
external: their outputs (`articleLinks` from the listing page,
`feedEntries` from the RSS feed) are inputs here. A throw inside
`prepare_articles` fails the run. -/
def run (kv : KV) (now : Nat) (nowIso : String)
    (parseDate : String → Option String) (articleLinks : List String)
    (feedEntries : String → Option FeedEntry) (mkId : Nat → String) :
    Except String ScrapeResult :=
  match prepareArticles parseDate nowIso
      (checkProcessedArticles kv now articleLinks) feedEntries articleLinks with
  | Except.error e => Except.error e
  | Except.ok arts =>
      Except.ok { success := true, total_links := articleLinks.length,
                  total_processed := arts.length,
                  processors := triggerProcessors mkId arts,
                  timestamp := nowIso }

end JoyNewsScraperWorkflow

/-- Outcome of one Telegram `sendPhoto` HTTP attempt (the whole
`ky.post(...).json()` call including its internal retry budget): the API
answered `ok: true`, answered `ok: false` with a description, or the call
threw. -/
inductive TelegramAttempt where
  | okResp
  | errResp (description : String)
  | exn (error : String)
deriving DecidableEq, Repr

/-- Whether an attempt outcome is a success (`result.ok === true`). -/
def attemptSucceeds : TelegramAttempt → Bool
  | TelegramAttempt.okResp => true
  | TelegramAttempt.errResp _ => false
  | TelegramAttempt.exn _ => false

/-- The fixed fallback image URL hard-coded in `sendTelegramMessage`
(src/worker/utils.ts). -/
def fallbackImageUrl : String :=
  "https://images.unsplash.com/photo-1504711434969-e33886168f5c?ixlib=rb-4.0.3&q=80&fm=jpg&crop=entropy&cs=tinysrgb&w=800&h=400&fit=crop"

/-- One `sendPhoto` attempt as performed: the photo URL it carried and the
ky retry limit configured for it. -/
structure SendAttemptRecord where
  photo : String
  retryLimit : Nat
deriving DecidableEq, Repr

/-- src/worker/utils.ts `sendTelegramMessage`: try `sendPhoto` with the
supplied image (ky retry limit 2); on `ok: true` return `true`; on an
`ok: false` response or a thrown error, make exactly one further attempt
with the constant fallback image (ky retry limit 3); return `true` when it
answers `ok: true` and `false` otherwise (an `ok: false` answer or a throw
caught by the outer handler). Returns the boolean result together with the
list of attempts performed. -/
def sendTelegramMessage (imageUrl : String)
    (firstAttempt fallbackAttempt : TelegramAttempt) :
    Bool × List SendAttemptRecord :=
  match firstAttempt with
  | TelegramAttempt.okResp => (true, [{ photo := imageUrl, retryLimit := 2 }])
  | _ =>
      match fallbackAttempt with
      | TelegramAttempt.okResp =>
          (true, [{ photo := imageUrl, retryLimit := 2 },
                  { photo := fallbackImageUrl, retryLimit := 3 }])
      | TelegramAttempt.errResp _ =>
          (false, [{ photo := imageUrl, retryLimit := 2 },
                   { photo := fallbackImageUrl, retryLimit := 3 }])
      | TelegramAttempt.exn _ =>
          (false, [{ photo := imageUrl, retryLimit := 2 },
                   { photo := fallbackImageUrl, retryLimit := 3 }])

/-- Durable-step retry semantics: run the attempt body (indexed by attempt
number) with the given remaining retry budget; a thrown error consumes one
retry, a successful body ends the step. Returns the step outcome and the
number of attempts made. -/
def runStep {α : Type} (body : Nat → Except String α) :
    Nat → Nat → Except String α × Nat
  | i, 0 => (body i, i + 1)
  | i, n + 1 =>
      match body i with
      | Except.ok v => (Except.ok v, i + 1)
      | Except.error _ => runStep body (i + 1) n

/-- Fixture: an article used to instantiate hypotheses at concrete inputs. -/
def articleA : Article :=
  { title := "T", url := "https://x/a", date_published := "2025-01-01",
    content := "body", image_url := none }

/-- Fixture: a cache holding a live entry for `articleA`'s URL at time 0. -/
def kvLiveA : KV :=
  fun key => if key == "article:https://x/a" then some ("cached", 100) else none

/-- Fixture: the empty cache. -/
def kvEmpty : KV := fun _ => none

/-- Fixture: a feed mapping holding a single entry, for `https://x/a`. -/
def feedC2 : String → Option JoyNewsScraperWorkflow.FeedEntry :=
  fun link =>
    if link == "https://x/a" then
      some { title := "A", link := "https://x/a", published := "",
             summary := "S", media_content := [] }
    else none

/-- Fixture: the Discovery result for the listing
`["https://x/a", "https://x/b"]` against `feedC2` and an empty cache. -/
def resC2 : JoyNewsScraperWorkflow.ScrapeResult :=
  { success := true, total_links := 2, total_processed := 1,
    processors := [{ url := "https://x/a", processor_id := "id",
                     status := "triggered" }],
    timestamp := "t" }

/-- Fixture: a feed entry whose publish-date field is empty. -/
def entryEmptyDate : JoyNewsScraperWorkflow.FeedEntry :=
  { title := "T", link := "https://x/a", published := "", summary := "S",
    media_content := [] }

/-- C1: with a live cache entry and `reprocess=false`, the Delivery run
returns exactly `{success: true, skipped: true, reason: "Article already
processed", url}`, leaves the cache unchanged, and its trace is a single
cache read — no Summarizer call, no Notifier call, no cache write. -/
theorem delivery_idempotent_skip (article : Article) (kv : KV) (now : Nat)
    (nowIso : String) (modelCall : Except String String) (sendResult : Bool)
    (hlive : kvGet kv now (GHNewsProcessorWorkflow.cacheKey article.url) ≠ none) :
    GHNewsProcessorWorkflow.run article false kv now nowIso modelCall sendResult =
      { result := Except.ok (GHNewsProcessorWorkflow.RunOutcome.skip
          { success := true, skipped := true,
            reason := "Article already processed", url := article.url }),
        kv := kv,
        trace := [Effect.cacheGet (GHNewsProcessorWorkflow.cacheKey article.url)] } := by
  simp [GHNewsProcessorWorkflow.run, Option.isSome_iff_ne_none, hlive]

/-- C1 witness: the skip branch evaluated at a concrete article and cache. -/
theorem delivery_idempotent_skip_witness :
    kvGet kvLiveA 0 (GHNewsProcessorWorkflow.cacheKey "https://x/a") ≠ none ∧
    GHNewsProcessorWorkflow.run articleA false kvLiveA 0 "2025-01-02T00:00:00.000Z"
        (Except.ok "s") true =
      { result := Except.ok (GHNewsProcessorWorkflow.RunOutcome.skip
          { success := true, skipped := true,
            reason := "Article already processed", url := "https://x/a" }),
        kv := kvLiveA,
        trace := [Effect.cacheGet (GHNewsProcessorWorkflow.cacheKey "https://x/a")] } :=
  ⟨by decide,
   delivery_idempotent_skip articleA kvLiveA 0 "2025-01-02T00:00:00.000Z"
     (Except.ok "s") true (by decide)⟩

/-- C6: when the attempt with the supplied image fails, `sendTelegramMessage`
makes exactly one further attempt with the fixed fallback image URL (each
attempt with its own ky retry budget, 2 then 3); it returns `true` iff the
first attempt or the fallback attempt succeeds, and `false` only when both
have failed. -/
theorem notifier_fallback_image (imageUrl : String)
    (a1 a2 : TelegramAttempt) :
    (sendTelegramMessage imageUrl a1 a2).1 =
      (attemptSucceeds a1 || attemptSucceeds a2) ∧
    (sendTelegramMessage imageUrl a1 a2).2 =
      (if attemptSucceeds a1 then [{ photo := imageUrl, retryLimit := 2 }]
       else [{ photo := imageUrl, retryLimit := 2 },
             { photo := fallbackImageUrl, retryLimit := 3 }]) := by
  cases a1 <;> cases a2 <;> simp [sendTelegramMessage, attemptSucceeds]

/-- C10: `summarizeArticle` is total over its error channel — a model-call
error is caught and mapped to `null` — so the `generate_summary` step body
always completes on its first attempt for any retry budget (step retries are
never triggered by a summarization failure), and the only summarization
failure path is the orchestrator's own fatal error naming the article URL,
thrown on a null result. -/
theorem summarization_error_channel_total (modelCall : Except String String)
    (limit : Nat) (article : Article) (kv : KV) (now : Nat) (nowIso : String)
    (sendResult : Bool) :
    runStep (fun _ => Except.ok (summarizeArticle modelCall)) 0 limit =
      (Except.ok (summarizeArticle modelCall), 1) ∧
    (∀ e, summarizeArticle (Except.error e) = none) ∧
    (summarizeArticle modelCall = none →
      kvGet kv now (GHNewsProcessorWorkflow.cacheKey article.url) = none →
      (GHNewsProcessorWorkflow.run article false kv now nowIso modelCall
          sendResult).result =
        Except.error ("Failed to generate summary for article: " ++ article.url)) := by
  refine ⟨?_, fun e => rfl, fun hnull hmiss => ?_⟩
  · cases limit <;> rfl
  · simp [GHNewsProcessorWorkflow.run, GHNewsProcessorWorkflow.mainSteps,
      hnull, hmiss]

/-- C10 witness: a failing model call at a concrete article and empty cache. -/
theorem summarization_error_channel_total_witness :
    summarizeArticle (Except.error "boom") = none ∧
    kvGet kvEmpty 0 (GHNewsProcessorWorkflow.cacheKey articleA.url) = none ∧
    (GHNewsProcessorWorkflow.run articleA false kvEmpty 0 "t"
        (Except.error "boom") true).result =
      Except.error ("Failed to generate summary for article: " ++ articleA.url) :=
  ⟨rfl, rfl,
   (summarization_error_channel_total (Except.error "boom") 3 articleA kvEmpty
      0 "t" true).2.2 rfl rfl⟩

/-- An assembled article carries the candidate link as its URL. -/
theorem mkArticle_url (pd : String → Option String) (nowIso link : String)
    (entry : JoyNewsScraperWorkflow.FeedEntry) (a : Article)
    (h : JoyNewsScraperWorkflow.mkArticle pd nowIso link entry = Except.ok a) :
    a.url = link := by
  unfold JoyNewsScraperWorkflow.mkArticle at h
  by_cases hp : entry.published == ""
  · simp [hp] at h
    rw [← h]
  · simp [hp] at h
    cases hpd : pd entry.published with
    | none => rw [hpd] at h; simp at h
    | some iso => rw [hpd] at h; simp at h; rw [← h]

/-- Every article produced by `prepare_articles` came from a candidate link
that was not marked processed and is present in the feed mapping. -/
theorem prepareArticles_mem (pd : String → Option String) (nowIso : String)
    (processed : String → Bool)
    (feed : String → Option JoyNewsScraperWorkflow.FeedEntry) :
    ∀ (links : List String) (arts : List Article),
      JoyNewsScraperWorkflow.prepareArticles pd nowIso processed feed links =
        Except.ok arts →
      ∀ a ∈ arts,
        a.url ∈ links ∧ processed a.url = false ∧ (feed a.url).isSome := by
  intro links
  induction links with
  | nil =>
    intro arts h a ha
    simp [JoyNewsScraperWorkflow.prepareArticles] at h
    subst h
    simp at ha
  | cons l rest ih =>
    intro arts h a ha
    by_cases hp : processed l = true
    · simp [JoyNewsScraperWorkflow.prepareArticles, hp] at h
      obtain ⟨h1, h2, h3⟩ := ih arts h a ha
      exact ⟨List.mem_cons_of_mem _ h1, h2, h3⟩
    · cases hf : feed l with
      | none =>
        simp [JoyNewsScraperWorkflow.prepareArticles, hp, hf] at h
        obtain ⟨h1, h2, h3⟩ := ih arts h a ha
        exact ⟨List.mem_cons_of_mem _ h1, h2, h3⟩
      | some entry =>
        simp [JoyNewsScraperWorkflow.prepareArticles, hp, hf] at h
        cases hmk : JoyNewsScraperWorkflow.mkArticle pd nowIso l entry with
        | error e => rw [hmk] at h; simp at h
        | ok a0 =>
          rw [hmk] at h
          cases hrec : JoyNewsScraperWorkflow.prepareArticles pd nowIso
              processed feed rest with
          | error e => rw [hrec] at h; simp at h
          | ok arts2 =>
            rw [hrec] at h
            simp at h
            subst h
            rcases List.mem_cons.mp ha with rfl | ha2
            · have hurl := mkArticle_url pd nowIso l entry a hmk
              refine ⟨?_, ?_, ?_⟩
              · rw [hurl]; exact List.mem_cons_self _ _
              · rw [hurl]; exact Bool.eq_false_iff.mpr hp
              · rw [hurl, hf]; rfl
            · obtain ⟨h1, h2, h3⟩ := ih arts2 hrec a ha2
              exact ⟨List.mem_cons_of_mem _ h1, h2, h3⟩

/-- Per-URL count of assembled articles: on a duplicate-free candidate
list, a URL yields exactly one article when it is a candidate, not marked
processed, and present in the feed mapping, and zero articles otherwise. -/
theorem prepareArticles_countP (pd : String → Option String) (nowIso : String)
    (processed : String → Bool)
    (feed : String → Option JoyNewsScraperWorkflow.FeedEntry) (u : String) :
    ∀ (links : List String) (arts : List Article), links.Nodup →
      JoyNewsScraperWorkflow.prepareArticles pd nowIso processed feed links =
        Except.ok arts →
      arts.countP (fun a => a.url == u) =
        if u ∈ links ∧ processed u = false ∧ (feed u).isSome then 1 else 0 := by
  intro links
  induction links with
  | nil =>
    intro arts _ h
    simp [JoyNewsScraperWorkflow.prepareArticles] at h
    subst h
    simp
  | cons l rest ih =>
    intro arts hnd h
    obtain ⟨hl, hnd2⟩ := List.nodup_cons.mp hnd
    by_cases hp : processed l = true
    · simp [JoyNewsScraperWorkflow.prepareArticles, hp] at h
      rw [ih arts hnd2 h]
      by_cases hu : u = l
      · subst hu
        simp [hp]
      · simp [List.mem_cons, hu]
    · cases hf : feed l with
      | none =>
        simp [JoyNewsScraperWorkflow.prepareArticles, hp, hf] at h
        rw [ih arts hnd2 h]
        by_cases hu : u = l
        · subst hu
          simp [hf]
        · simp [List.mem_cons, hu]
      | some entry =>
        simp [JoyNewsScraperWorkflow.prepareArticles, hp, hf] at h
        cases hmk : JoyNewsScraperWorkflow.mkArticle pd nowIso l entry with
        | error e => rw [hmk] at h; simp at h
        | ok a0 =>
          rw [hmk] at h
          cases hrec : JoyNewsScraperWorkflow.prepareArticles pd nowIso
              processed feed rest with
          | error e => rw [hrec] at h; simp at h
          | ok arts2 =>
            rw [hrec] at h
            simp at h
            subst h
            have hurl := mkArticle_url pd nowIso l entry a0 hmk
            rw [List.countP_cons, ih arts2 hnd2 hrec]
            by_cases hu : u = l
            · subst hu
              have : u ∉ rest := hl
              simp [hurl, this, Bool.eq_false_iff.mpr hp, hf]
            · have : (a0.url == u) = false := by
                rw [hurl]
                exact beq_eq_false_iff_ne.mpr (Ne.symm hu)
              simp [this, List.mem_cons, hu]

/-- The fan-out mapping preserves per-URL counts of assembled articles. -/
theorem triggerProcessorsAux_countP (mkId : Nat → String) (u : String) :
    ∀ (arts : List Article) (i : Nat),
      (JoyNewsScraperWorkflow.triggerProcessorsAux mkId i arts).countP
          (fun t => t.url == u) =
        arts.countP (fun a => a.url == u) := by
  intro arts
  induction arts with
  | nil => intro i; rfl
  | cons a rest ih =>
    intro i
    simp [JoyNewsScraperWorkflow.triggerProcessorsAux, List.countP_cons, ih]

/-- Step 5 triggers exactly as many processor instances per URL as step 4
assembled articles for it. -/
theorem triggerProcessors_countP (mkId : Nat → String) (u : String)
    (arts : List Article) :
    (JoyNewsScraperWorkflow.triggerProcessors mkId arts).countP
        (fun t => t.url == u) =
      arts.countP (fun a => a.url == u) := by
  unfold JoyNewsScraperWorkflow.triggerProcessors
  by_cases he : arts.isEmpty
  · rw [List.isEmpty_iff] at he
    subst he
    rfl
  · simp only [he, if_false]
    exact triggerProcessorsAux_countP mkId u arts 0

/-- Every trigger record comes from an assembled article (same URL) and
carries the fixed status marker. -/
theorem triggerProcessorsAux_mem (mkId : Nat → String) :
    ∀ (arts : List Article) (i : Nat)
      (t : JoyNewsScraperWorkflow.ProcessorTrigger),
      t ∈ JoyNewsScraperWorkflow.triggerProcessorsAux mkId i arts →
      ∃ a ∈ arts, t.url = a.url ∧ t.status = "triggered" := by
  intro arts
  induction arts with
  | nil =>
    intro i t ht
    simp [JoyNewsScraperWorkflow.triggerProcessorsAux] at ht
  | cons a rest ih =>
    intro i t ht
    rw [JoyNewsScraperWorkflow.triggerProcessorsAux] at ht
    rcases List.mem_cons.mp ht with rfl | ht2
    · exact ⟨a, List.mem_cons_self _ _, rfl, rfl⟩
    · obtain ⟨a2, ha2, h1, h2⟩ := ih (i + 1) t ht2
      exact ⟨a2, List.mem_cons_of_mem _ ha2, h1, h2⟩

/-- Membership form of the fan-out step. -/
theorem triggerProcessors_mem (mkId : Nat → String) (arts : List Article)
    (t : JoyNewsScraperWorkflow.ProcessorTrigger)
    (ht : t ∈ JoyNewsScraperWorkflow.triggerProcessors mkId arts) :
    ∃ a ∈ arts, t.url = a.url ∧ t.status = "triggered" := by
  unfold JoyNewsScraperWorkflow.triggerProcessors at ht
  by_cases he : arts.isEmpty
  · simp [he] at ht
  · simp only [he, if_false] at ht
    exact triggerProcessorsAux_mem mkId arts 0 t ht

/-- C2 counterexample: the Discovery loop does not deduplicate the candidate
list — a listing that returns the same URL twice (empty cache, URL present
in the feed) triggers two DeliveryOrchestrator instances for that URL in a
single run, contradicting "never more than one instance per URL in the same
run". -/
theorem discovery_dedup_duplicate_counterexample :
    (JoyNewsScraperWorkflow.run kvEmpty 0 "t" (fun _ => none)
        ["https://x/a", "https://x/a"] feedC2 (fun _ => "id")).map
      (fun r => r.processors.countP (fun t => t.url == "https://x/a")) =
      Except.ok 2 ∧ ¬(2 ≤ 1) := by
  exact ⟨rfl, by decide⟩

/-- C2 (amended): for a candidate list without duplicate URLs, the fan-out
step triggers exactly one DeliveryOrchestrator instance per candidate URL
that has no live cache entry and is present in the feed mapping, and zero
instances for every other URL (live cache entry, absent from the feed, or
not a candidate); a URL duplicated in the listing is triggered once per
occurrence. -/
theorem discovery_dedup_nodup (kv : KV) (now : Nat) (nowIso : String)
    (parseDate : String → Option String) (links : List String)
    (feed : String → Option JoyNewsScraperWorkflow.FeedEntry)
    (mkId : Nat → String) (u : String)
    (res : JoyNewsScraperWorkflow.ScrapeResult)
    (hnd : links.Nodup)
    (hok : JoyNewsScraperWorkflow.run kv now nowIso parseDate links feed mkId =
      Except.ok res) :
    res.processors.countP (fun t => t.url == u) =
      if u ∈ links ∧ kvGet kv now (JoyNewsScraperWorkflow.cacheKey u) = none ∧
          (feed u).isSome
      then 1 else 0 := by
  unfold JoyNewsScraperWorkflow.run at hok
  cases hprep : JoyNewsScraperWorkflow.prepareArticles parseDate nowIso
      (JoyNewsScraperWorkflow.checkProcessedArticles kv now links) feed links with
  | error e => rw [hprep] at hok; simp at hok
  | ok arts =>
    rw [hprep] at hok
    simp at hok
    rw [← hok]
    rw [triggerProcessors_countP,
      prepareArticles_countP parseDate nowIso
        (JoyNewsScraperWorkflow.checkProcessedArticles kv now links) feed u
        links arts hnd hprep]
    by_cases hm : u ∈ links
    · cases hkv : kvGet kv now (JoyNewsScraperWorkflow.cacheKey u) with
      | none => simp [JoyNewsScraperWorkflow.checkProcessedArticles, hm, hkv]
      | some v => simp [JoyNewsScraperWorkflow.checkProcessedArticles, hm, hkv]
    · simp [hm]

/-- C2 witness: the amended dedup property evaluated on a concrete
duplicate-free run. -/
theorem discovery_dedup_nodup_witness :
    (["https://x/a", "https://x/b"] : List String).Nodup ∧
    JoyNewsScraperWorkflow.run kvEmpty 0 "t" (fun _ => none)
        ["https://x/a", "https://x/b"] feedC2 (fun _ => "id") =
      Except.ok resC2 ∧
    resC2.processors.countP (fun t => t.url == "https://x/a") =
      if "https://x/a" ∈ (["https://x/a", "https://x/b"] : List String) ∧
          kvGet kvEmpty 0 (JoyNewsScraperWorkflow.cacheKey "https://x/a") = none ∧
          (feedC2 "https://x/a").isSome
      then 1 else 0 :=
  ⟨by decide, rfl,
   discovery_dedup_nodup kvEmpty 0 "t" (fun _ => none)
     ["https://x/a", "https://x/b"] feedC2 (fun _ => "id") "https://x/a" resC2
     (by decide) rfl⟩

/-- C7: a candidate URL absent from the feed mapping never yields a
DeliveryUnit — in a successful Discovery run, every entry of the
triggered-processors list has a different URL and the fixed status
`'triggered'`, so the dropped URL appears neither as triggered nor as an
error. -/
theorem feed_authority (kv : KV) (now : Nat) (nowIso : String)
    (parseDate : String → Option String) (links : List String)
    (feed : String → Option JoyNewsScraperWorkflow.FeedEntry)
    (mkId : Nat → String) (u : String)
    (res : JoyNewsScraperWorkflow.ScrapeResult)
    (hu : feed u = none)
    (hok : JoyNewsScraperWorkflow.run kv now nowIso parseDate links feed mkId =
      Except.ok res) :
    res.processors.all (fun t => !(t.url == u) && (t.status == "triggered")) =
      true := by
  unfold JoyNewsScraperWorkflow.run at hok
  cases hprep : JoyNewsScraperWorkflow.prepareArticles parseDate nowIso
      (JoyNewsScraperWorkflow.checkProcessedArticles kv now links) feed links with
  | error e => rw [hprep] at hok; simp at hok
  | ok arts =>
    rw [hprep] at hok
    simp at hok
    rw [← hok]
    rw [List.all_eq_true]
    intro t ht
    obtain ⟨a, ha, hturl, hstat⟩ := triggerProcessors_mem mkId arts t ht
    obtain ⟨_, _, hsome⟩ := prepareArticles_mem parseDate nowIso
      (JoyNewsScraperWorkflow.checkProcessedArticles kv now links) feed links
      arts hprep a ha
    have hne : a.url ≠ u := by
      intro he
      rw [he, hu] at hsome
      simp at hsome
    simp [hturl, hstat, hne]

/-- C7 witness: the feed-authority property evaluated on a concrete run in
which `https://x/b` is listed but absent from the feed. -/
theorem feed_authority_witness :
    feedC2 "https://x/b" = none ∧
    JoyNewsScraperWorkflow.run kvEmpty 0 "t" (fun _ => none)
        ["https://x/a", "https://x/b"] feedC2 (fun _ => "id") =
      Except.ok resC2 ∧
    resC2.processors.all
        (fun t => !(t.url == "https://x/b") && (t.status == "triggered")) =
      true :=
  ⟨rfl, rfl,
   feed_authority kvEmpty 0 "t" (fun _ => none) ["https://x/a", "https://x/b"]
     feedC2 (fun _ => "id") "https://x/b" resC2 rfl rfl⟩

/-- C9 counterexample: a feed entry whose publish-date field is present but
not parseable does not default to the current time — `new
Date(entry.published).toISOString()` throws, failing article assembly
(modelled by `parseDate` returning `none` on the unparseable string
`"yesterday evening"`). -/
theorem article_date_counterexample :
    JoyNewsScraperWorkflow.mkArticle (fun _ => none)
        "2025-01-01T00:00:00.000Z" "https://x/a"
        { title := "T", link := "https://x/a", published := "yesterday evening",
          summary := "S", media_content := [] } =
      Except.error "RangeError: Invalid time value" := rfl

/-- C9 (amended): article assembly uses the current time only when the
publish-date field is empty or absent, and the parsed ISO date when the
field parses; when the field is present but unparseable, assembly throws a
RangeError (failing the `prepare_articles` step) instead of defaulting. -/
theorem article_date_behavior (parseDate : String → Option String)
    (nowIso link : String) (entry : JoyNewsScraperWorkflow.FeedEntry) :
    (entry.published = "" →
      JoyNewsScraperWorkflow.mkArticle parseDate nowIso link entry =
        Except.ok { title := entry.title, url := link,
                    date_published := nowIso, content := entry.summary,
                    image_url := some ((entry.media_content.head?).getD "") }) ∧
    (∀ iso, entry.published ≠ "" → parseDate entry.published = some iso →
      JoyNewsScraperWorkflow.mkArticle parseDate nowIso link entry =
        Except.ok { title := entry.title, url := link,
                    date_published := iso, content := entry.summary,
                    image_url := some ((entry.media_content.head?).getD "") }) ∧
    (entry.published ≠ "" → parseDate entry.published = none →
      JoyNewsScraperWorkflow.mkArticle parseDate nowIso link entry =
        Except.error "RangeError: Invalid time value") := by
  refine ⟨fun h => by simp [JoyNewsScraperWorkflow.mkArticle, h],
    fun iso h hp => by simp [JoyNewsScraperWorkflow.mkArticle, h, hp],
    fun h hp => by simp [JoyNewsScraperWorkflow.mkArticle, h, hp]⟩

/-- C9 witness: the empty-date default branch evaluated at a concrete feed
entry. -/
theorem article_date_behavior_witness :
    entryEmptyDate.published = "" ∧
    JoyNewsScraperWorkflow.mkArticle (fun _ => none) "iso-now" "https://x/a"
        entryEmptyDate =
      Except.ok { title := "T", url := "https://x/a",
                  date_published := "iso-now", content := "S",
                  image_url := some "" } :=
  ⟨rfl,
   (article_date_behavior (fun _ => none) "iso-now" "https://x/a"
      entryEmptyDate).1 rfl⟩

/-- C5: when the Summarizer yields no usable summary (`null`) in a run that
reaches the summarize step, the run throws the fatal error naming the
article URL, sends no notification, and writes nothing to the cache. -/
theorem summary_failure_fatal (article : Article) (reprocess : Bool) (kv : KV)
    (now : Nat) (nowIso : String) (modelCall : Except String String)
    (sendResult : Bool)
    (hnull : summarizeArticle modelCall = none)
    (hreach : reprocess = true ∨
      kvGet kv now (GHNewsProcessorWorkflow.cacheKey article.url) = none) :
    (GHNewsProcessorWorkflow.run article reprocess kv now nowIso modelCall
        sendResult).result =
      Except.error ("Failed to generate summary for article: " ++ article.url) ∧
    (GHNewsProcessorWorkflow.run article reprocess kv now nowIso modelCall
        sendResult).kv = kv ∧
    (∀ m i l, Effect.notify m i l ∉
      (GHNewsProcessorWorkflow.run article reprocess kv now nowIso modelCall
        sendResult).trace) ∧
    (∀ k v t, Effect.cachePut k v t ∉
      (GHNewsProcessorWorkflow.run article reprocess kv now nowIso modelCall
        sendResult).trace) := by
  rcases hreach with hr | hr
  · subst hr
    refine ⟨?_, ?_, ?_, ?_⟩ <;>
      simp [GHNewsProcessorWorkflow.run, GHNewsProcessorWorkflow.mainSteps, hnull]
  · cases reprocess with
    | true =>
      refine ⟨?_, ?_, ?_, ?_⟩ <;>
        simp [GHNewsProcessorWorkflow.run, GHNewsProcessorWorkflow.mainSteps, hnull]
    | false =>
      refine ⟨?_, ?_, ?_, ?_⟩ <;>
        simp [GHNewsProcessorWorkflow.run, GHNewsProcessorWorkflow.mainSteps,
          hnull, hr]

/-- C5 witness: a null summary on an uncached article at concrete inputs. -/
theorem summary_failure_fatal_witness :
    summarizeArticle (Except.error "model down") = none ∧
    (GHNewsProcessorWorkflow.run articleA false kvEmpty 0 "t"
        (Except.error "model down") true).result =
      Except.error "Failed to generate summary for article: https://x/a" ∧
    (GHNewsProcessorWorkflow.run articleA false kvEmpty 0 "t"
        (Except.error "model down") true).kv = kvEmpty ∧
    Effect.notify "m" "i" "l" ∉
      (GHNewsProcessorWorkflow.run articleA false kvEmpty 0 "t"
        (Except.error "model down") true).trace ∧
    Effect.cachePut "k" "v" 86400 ∉
      (GHNewsProcessorWorkflow.run articleA false kvEmpty 0 "t"
        (Except.error "model down") true).trace := by
  have h := summary_failure_fatal articleA false kvEmpty 0 "t"
    (Except.error "model down") true rfl (Or.inr rfl)
  exact ⟨rfl, h.1, h.2.1, h.2.2.1 "m" "i" "l", h.2.2.2 "k" "v" 86400⟩

/-- C8: with `reprocess=true` the Delivery run performs no idempotency
cache read, its result and trace are independent of the cache state and
clock, the Summarizer is always invoked, and when summarize and send
succeed the run proceeds through summarize, send, and record. -/
theorem reprocess_override (article : Article) (kv kv' : KV) (now now' : Nat)
    (nowIso : String) (modelCall : Except String String) (sendResult : Bool) :
    (∀ k, Effect.cacheGet k ∉
      (GHNewsProcessorWorkflow.run article true kv now nowIso modelCall
        sendResult).trace) ∧
    (GHNewsProcessorWorkflow.run article true kv now nowIso modelCall
        sendResult).result =
      (GHNewsProcessorWorkflow.run article true kv' now' nowIso modelCall
        sendResult).result ∧
    (GHNewsProcessorWorkflow.run article true kv now nowIso modelCall
        sendResult).trace =
      (GHNewsProcessorWorkflow.run article true kv' now' nowIso modelCall
        sendResult).trace ∧
    Effect.summarize article.content ∈
      (GHNewsProcessorWorkflow.run article true kv now nowIso modelCall
        sendResult).trace ∧
    (∀ s, summarizeArticle modelCall = some s → s ≠ "" → sendResult = true →
      (GHNewsProcessorWorkflow.run article true kv now nowIso modelCall
          sendResult).trace =
        [Effect.summarize article.content,
         Effect.notify (GHNewsProcessorWorkflow.telegramMessageFor article.title s)
           (jsOrDefaultImage article.image_url) article.url,
         Effect.cachePut (GHNewsProcessorWorkflow.cacheKey article.url)
           (GHNewsProcessorWorkflow.metadataFor nowIso article s) 86400]) := by
  cases hs : summarizeArticle modelCall with
  | none =>
    refine ⟨?_, ?_, ?_, ?_, ?_⟩ <;>
      simp [GHNewsProcessorWorkflow.run, GHNewsProcessorWorkflow.mainSteps, hs]
  | some s0 =>
    by_cases hemp : s0 = ""
    · subst hemp
      cases sendResult with
      | false =>
        refine ⟨?_, ?_, ?_, ?_, ?_⟩ <;>
          simp [GHNewsProcessorWorkflow.run, GHNewsProcessorWorkflow.mainSteps, hs]
      | true =>
        refine ⟨?_, ?_, ?_, ?_, ?_⟩ <;>
          simp [GHNewsProcessorWorkflow.run, GHNewsProcessorWorkflow.mainSteps, hs]
    · cases sendResult with
      | false =>
        refine ⟨?_, ?_, ?_, ?_, ?_⟩ <;>
          simp [GHNewsProcessorWorkflow.run, GHNewsProcessorWorkflow.mainSteps,
            hs, hemp]
      | true =>
        refine ⟨?_, ?_, ?_, ?_, ?_⟩ <;>
          simp [GHNewsProcessorWorkflow.run, GHNewsProcessorWorkflow.mainSteps,
            hs, hemp]

/-- C8 witness: the reprocess override evaluated on a concrete article with
a live cache entry versus an empty cache. -/
theorem reprocess_override_witness :
    Effect.cacheGet "article:https://x/a" ∉
      (GHNewsProcessorWorkflow.run articleA true kvLiveA 0 "t" (Except.ok "s")
        true).trace ∧
    (GHNewsProcessorWorkflow.run articleA true kvLiveA 0 "t" (Except.ok "s")
        true).result =
      (GHNewsProcessorWorkflow.run articleA true kvEmpty 5 "t" (Except.ok "s")
        true).result ∧
    summarizeArticle (Except.ok "s") = some "s" ∧
    (GHNewsProcessorWorkflow.run articleA true kvLiveA 0 "t" (Except.ok "s")
        true).trace =
      [Effect.summarize "body",
       Effect.notify (GHNewsProcessorWorkflow.telegramMessageFor "T" "s")
         defaultImageUrl "https://x/a",
       Effect.cachePut "article:https://x/a"
         (GHNewsProcessorWorkflow.metadataFor "t" articleA "s") 86400] := by
  have h := reprocess_override articleA kvLiveA kvEmpty 0 5 "t" (Except.ok "s")
    true
  exact ⟨h.1 "article:https://x/a", h.2.1, rfl,
    h.2.2.2.2 "s" rfl (by decide) rfl⟩

/-- A cache write in a Delivery trace happens only on a successful send,
always with TTL 86400 and the article's cache key, and it sits immediately
after the notification send in the trace. -/
theorem run_cachePut_mem (article : Article) (reprocess : Bool) (kv : KV)
    (now : Nat) (nowIso : String) (modelCall : Except String String)
    (sendResult : Bool) (k v : String) (t : Nat)
    (hm : Effect.cachePut k v t ∈
      (GHNewsProcessorWorkflow.run article reprocess kv now nowIso modelCall
        sendResult).trace) :
    sendResult = true ∧ t = 86400 ∧
    k = GHNewsProcessorWorkflow.cacheKey article.url ∧
    ∃ pre m i l,
      (GHNewsProcessorWorkflow.run article reprocess kv now nowIso modelCall
          sendResult).trace =
        pre ++ [Effect.notify m i l, Effect.cachePut k v t] := by
  cases hsend : sendResult with
  | false =>
    subst hsend
    exfalso
    cases reprocess with
    | true =>
      cases hs : summarizeArticle modelCall with
      | none =>
        simp [GHNewsProcessorWorkflow.run, GHNewsProcessorWorkflow.mainSteps,
          hs] at hm
      | some s =>
        by_cases hemp : s = ""
        · subst hemp
          simp [GHNewsProcessorWorkflow.run, GHNewsProcessorWorkflow.mainSteps,
            hs] at hm
        · simp [GHNewsProcessorWorkflow.run, GHNewsProcessorWorkflow.mainSteps,
            hs, hemp] at hm
    | false =>
      by_cases hc :
          (kvGet kv now (GHNewsProcessorWorkflow.cacheKey article.url)).isSome
      · simp [GHNewsProcessorWorkflow.run, hc] at hm
      · cases hs : summarizeArticle modelCall with
        | none =>
          simp [GHNewsProcessorWorkflow.run, GHNewsProcessorWorkflow.mainSteps,
            hs, hc] at hm
        | some s =>
          by_cases hemp : s = ""
          · subst hemp
            simp [GHNewsProcessorWorkflow.run, GHNewsProcessorWorkflow.mainSteps,
              hs, hc] at hm
          · simp [GHNewsProcessorWorkflow.run, GHNewsProcessorWorkflow.mainSteps,
              hs, hemp, hc] at hm
  | true =>
    subst hsend
    refine ⟨rfl, ?_⟩
    cases reprocess with
    | true =>
      cases hs : summarizeArticle modelCall with
      | none =>
        exfalso
        simp [GHNewsProcessorWorkflow.run, GHNewsProcessorWorkflow.mainSteps,
          hs] at hm
      | some s =>
        by_cases hemp : s = ""
        · exfalso
          subst hemp
          simp [GHNewsProcessorWorkflow.run, GHNewsProcessorWorkflow.mainSteps,
            hs] at hm
        · simp [GHNewsProcessorWorkflow.run, GHNewsProcessorWorkflow.mainSteps,
            hs, hemp] at hm ⊢
          obtain ⟨hk, hv, ht⟩ := hm
          subst hk; subst hv; subst ht
          refine ⟨rfl, rfl,
            ⟨[Effect.summarize article.content],
             GHNewsProcessorWorkflow.telegramMessageFor article.title s,
             jsOrDefaultImage article.image_url, article.url, by simp⟩⟩
    | false =>
      by_cases hc :
          (kvGet kv now (GHNewsProcessorWorkflow.cacheKey article.url)).isSome
      · exfalso
        simp [GHNewsProcessorWorkflow.run, hc] at hm
      · cases hs : summarizeArticle modelCall with
        | none =>
          exfalso
          simp [GHNewsProcessorWorkflow.run, GHNewsProcessorWorkflow.mainSteps,
            hs, hc] at hm
        | some s =>
          by_cases hemp : s = ""
          · exfalso
            subst hemp
            simp [GHNewsProcessorWorkflow.run, GHNewsProcessorWorkflow.mainSteps,
              hs, hc] at hm
          · simp [GHNewsProcessorWorkflow.run, GHNewsProcessorWorkflow.mainSteps,
              hs, hemp, hc] at hm ⊢
            obtain ⟨hk, hv, ht⟩ := hm
            subst hk; subst hv; subst ht
            refine ⟨rfl, rfl,
              ⟨[Effect.cacheGet (GHNewsProcessorWorkflow.cacheKey article.url),
                Effect.summarize article.content],
               GHNewsProcessorWorkflow.telegramMessageFor article.title s,
               jsOrDefaultImage article.image_url, article.url, by simp⟩⟩

/-- A Delivery run whose trace shows a notification send and whose send
outcome is failure ends in the fatal send error with the cache unchanged. -/
theorem run_send_failure (article : Article) (reprocess : Bool) (kv : KV)
    (now : Nat) (nowIso : String) (modelCall : Except String String)
    (m i l : String)
    (hm : Effect.notify m i l ∈
      (GHNewsProcessorWorkflow.run article reprocess kv now nowIso modelCall
        false).trace) :
    (GHNewsProcessorWorkflow.run article reprocess kv now nowIso modelCall
        false).result =
      Except.error ("Failed to send Telegram message for article: " ++ article.url) ∧
    (GHNewsProcessorWorkflow.run article reprocess kv now nowIso modelCall
        false).kv = kv := by
  cases reprocess with
  | true =>
    cases hs : summarizeArticle modelCall with
    | none =>
      exfalso
      simp [GHNewsProcessorWorkflow.run, GHNewsProcessorWorkflow.mainSteps,
        hs] at hm
    | some s =>
      by_cases hemp : s = ""
      · exfalso
        subst hemp
        simp [GHNewsProcessorWorkflow.run, GHNewsProcessorWorkflow.mainSteps,
          hs] at hm
      · constructor <;>
          simp [GHNewsProcessorWorkflow.run, GHNewsProcessorWorkflow.mainSteps,
            hs, hemp]
  | false =>
    by_cases hc :
        (kvGet kv now (GHNewsProcessorWorkflow.cacheKey article.url)).isSome
    · exfalso
      simp [GHNewsProcessorWorkflow.run, hc] at hm
    · cases hs : summarizeArticle modelCall with
      | none =>
        exfalso
        simp [GHNewsProcessorWorkflow.run, GHNewsProcessorWorkflow.mainSteps,
          hs, hc] at hm
      | some s =>
        by_cases hemp : s = ""
        · exfalso
          subst hemp
          simp [GHNewsProcessorWorkflow.run, GHNewsProcessorWorkflow.mainSteps,
            hs, hc] at hm
        · constructor <;>
            simp [GHNewsProcessorWorkflow.run, GHNewsProcessorWorkflow.mainSteps,
              hs, hemp, hc]

/-- C3: the cache entry is written only after the notification send has
returned success — a run that reached the send and whose send outcome is
failure throws the fatal error naming the article URL with the cache
unchanged and no cache write, and every cache write in a trace requires a
successful send and sits directly after the send, never before it. -/
theorem record_only_after_send (article : Article) (reprocess : Bool)
    (kv : KV) (now : Nat) (nowIso : String) (modelCall : Except String String)
    (sendResult : Bool) :
    ((∃ m i l, Effect.notify m i l ∈
        (GHNewsProcessorWorkflow.run article reprocess kv now nowIso modelCall
          sendResult).trace) →
      sendResult = false →
      (GHNewsProcessorWorkflow.run article reprocess kv now nowIso modelCall
          sendResult).result =
        Except.error ("Failed to send Telegram message for article: " ++ article.url) ∧
      (GHNewsProcessorWorkflow.run article reprocess kv now nowIso modelCall
          sendResult).kv = kv ∧
      (∀ k v t, Effect.cachePut k v t ∉
        (GHNewsProcessorWorkflow.run article reprocess kv now nowIso modelCall
          sendResult).trace)) ∧
    (∀ k v t, Effect.cachePut k v t ∈
        (GHNewsProcessorWorkflow.run article reprocess kv now nowIso modelCall
          sendResult).trace →
      sendResult = true ∧
      ∃ pre m i l,
        (GHNewsProcessorWorkflow.run article reprocess kv now nowIso modelCall
            sendResult).trace =
          pre ++ [Effect.notify m i l, Effect.cachePut k v t]) := by
  constructor
  · rintro ⟨m, i, l, hm⟩ hsend
    subst hsend
    obtain ⟨h1, h2⟩ := run_send_failure article reprocess kv now nowIso
      modelCall m i l hm
    refine ⟨h1, h2, fun k v t hput => ?_⟩
    have := (run_cachePut_mem article reprocess kv now nowIso modelCall false
      k v t hput).1
    simp at this
  · intro k v t hput
    obtain ⟨h1, _, _, h4⟩ := run_cachePut_mem article reprocess kv now nowIso
      modelCall sendResult k v t hput
    exact ⟨h1, h4⟩

/-- C3 witness: a failing send on an uncached article at concrete inputs. -/
theorem record_only_after_send_witness :
    (GHNewsProcessorWorkflow.run articleA false kvEmpty 0 "t" (Except.ok "s")
        false).result =
      Except.error "Failed to send Telegram message for article: https://x/a" ∧
    (GHNewsProcessorWorkflow.run articleA false kvEmpty 0 "t" (Except.ok "s")
        false).kv = kvEmpty ∧
    Effect.cachePut "article:https://x/a" "v" 86400 ∉
      (GHNewsProcessorWorkflow.run articleA false kvEmpty 0 "t" (Except.ok "s")
        false).trace := by
  have h := (record_only_after_send articleA false kvEmpty 0 "t"
      (Except.ok "s") false).1
    ⟨GHNewsProcessorWorkflow.telegramMessageFor "T" "s",
     jsOrDefaultImage none, "https://x/a", by decide⟩ rfl
  exact ⟨h.1, h.2.1, h.2.2 "article:https://x/a" "v" 86400⟩

/-- C4: both stages compute the cache key as the fixed literal `'article:'`
concatenated with the article URL (the Discovery bulk check addresses the
same keys the Delivery stage reads and writes), a get after a put for the
same URL returns the written value before the 86400 s TTL elapses, and
every cache write performed by the Delivery stage uses that key with TTL
86400 (24 hours). -/
theorem cache_key_discipline :
    (∀ url, JoyNewsScraperWorkflow.cacheKey url =
      GHNewsProcessorWorkflow.cacheKey url) ∧
    (∀ url, GHNewsProcessorWorkflow.cacheKey url = "article:" ++ url) ∧
    (∀ (kv : KV) (now : Nat) (links : List String) (link : String),
      JoyNewsScraperWorkflow.checkProcessedArticles kv now links link =
        (decide (link ∈ links) &&
          (kvGet kv now (GHNewsProcessorWorkflow.cacheKey link)).isSome)) ∧
    (∀ (kv : KV) (now t : Nat) (url value : String),
      now ≤ t → t < now + 86400 →
      kvGet (kvPut kv now (GHNewsProcessorWorkflow.cacheKey url) value 86400) t
        (GHNewsProcessorWorkflow.cacheKey url) = some value) ∧
    (∀ (article : Article) (reprocess : Bool) (kv : KV) (now : Nat)
        (nowIso : String) (modelCall : Except String String)
        (sendResult : Bool) (k v : String) (t : Nat),
      Effect.cachePut k v t ∈
        (GHNewsProcessorWorkflow.run article reprocess kv now nowIso modelCall
          sendResult).trace →
      t = 86400 ∧ k = GHNewsProcessorWorkflow.cacheKey article.url) := by
  refine ⟨fun url => rfl, fun url => rfl, fun kv now links link => rfl, ?_, ?_⟩
  · intro kv now t url value h1 h2
    simp [kvGet, kvPut, h2]
  · intro article reprocess kv now nowIso modelCall sendResult k v t hm
    have h := run_cachePut_mem article reprocess kv now nowIso modelCall
      sendResult k v t hm
    exact ⟨h.2.1, h.2.2.1⟩

/-- C4 witness: a get five seconds after a put for the same URL returns the
written value. -/
theorem cache_key_discipline_witness :
    (0 : Nat) ≤ 5 ∧ (5 : Nat) < 0 + 86400 ∧
    kvGet (kvPut kvEmpty 0 (GHNewsProcessorWorkflow.cacheKey "https://x/a")
        "meta" 86400) 5 (GHNewsProcessorWorkflow.cacheKey "https://x/a") =
      some "meta" :=
  ⟨by decide, by decide,
   cache_key_discipline.2.2.2.1 kvEmpty 0 5 "https://x/a" "meta" (by decide)
     (by decide)⟩
